import Mathlib

/-!
Verification of the pose-assessment API service (src/main.py) against its
specification.  Strings are modelled as `List Char`; the external OpenAI
completion capability is an abstract function; `random.randint` draws from an
explicit stream of raw values; fallible steps return `Option`/`Except`.
-/

/-! ## Python string primitives -/

/-- Whitespace characters removed by Python's `str.strip()`. -/
def isPySpace (c : Char) : Bool :=
  c == ' ' || c == '\t' || c == '\n' || c == '\r' || c == '\x0b' || c == '\x0c'

/-- Python `s.startswith(pat)` (first argument is the pattern). -/
def startswith : List Char → List Char → Bool
  | [], _ => true
  | _ :: _, [] => false
  | a :: as, b :: bs => a == b && startswith as bs

/-- Python `s.endswith(suf)` (first argument is the suffix). -/
def endswith (suf s : List Char) : Bool :=
  startswith suf.reverse s.reverse

/-- Leading half of Python `str.strip()`. -/
def lstrip (s : List Char) : List Char := s.dropWhile isPySpace

/-- Trailing half of Python `str.strip()`. -/
def rstrip (s : List Char) : List Char := (s.reverse.dropWhile isPySpace).reverse

/-- Python `str.strip()`: removes whitespace from both ends. -/
def pyStrip (s : List Char) : List Char := rstrip (lstrip s)

/-! ## JSON values and `json.loads`

The JSON document model (`json.loads` output).  Numbers are modelled as
integers: every numeric literal appearing in the program and in the
properties below is integral. -/

inductive Json where
  | null
  | bool (b : Bool)
  | num (n : Int)
  | str (s : List Char)
  | arr (xs : List Json)
  | obj (fields : List (List Char × Json))

/-- JSON inter-token whitespace (the class `json.decoder` skips). -/
def isJsonWs (c : Char) : Bool :=
  c == ' ' || c == '\t' || c == '\n' || c == '\r'

/-- Skip JSON whitespace. -/
def skipWsJ (s : List Char) : List Char := s.dropWhile isJsonWs

/-- ASCII decimal digit test. -/
def isDigitC (c : Char) : Bool := '0' ≤ c && c ≤ '9'

/-- Body of a JSON string after the opening quote: returns the decoded
characters and the remainder after the closing quote.  The common escapes
are decoded; `\uXXXX` escapes are outside the model. -/
def parseStrBody : Nat → List Char → Option (List Char × List Char)
  | 0, _ => none
  | _, [] => none
  | fuel + 1, c :: rest =>
    if c == '"' then some ([], rest)
    else if c == '\\' then
      match rest with
      | [] => none
      | e :: rest' =>
        let mapped : Option Char :=
          if e == '"' then some '"'
          else if e == '\\' then some '\\'
          else if e == '/' then some '/'
          else if e == 'n' then some '\n'
          else if e == 't' then some '\t'
          else if e == 'r' then some '\r'
          else if e == 'b' then some '\x08'
          else if e == 'f' then some '\x0c'
          else none
        match mapped with
        | none => none
        | some ch =>
          match parseStrBody fuel rest' with
          | none => none
          | some (cs, r) => some (ch :: cs, r)
    else
      match parseStrBody fuel rest with
      | none => none
      | some (cs, r) => some (c :: cs, r)

/-- Accumulate a run of decimal digits. -/
def digitsToNat (acc : Nat) : List Char → Nat × List Char
  | [] => (acc, [])
  | c :: r =>
    if isDigitC c then digitsToNat (acc * 10 + (c.toNat - 48)) (r)
    else (acc, c :: r)

/-- Non-negative integer literal; fractional or exponent forms are outside
the integer-valued model. -/
def parseNumNat (s : List Char) : Option (Nat × List Char) :=
  match s with
  | [] => none
  | c :: _ =>
    if isDigitC c then
      match digitsToNat 0 s with
      | (n, r) =>
        match r with
        | [] => some (n, [])
        | d :: _ =>
          if d == '.' || d == 'e' || d == 'E' then none else some (n, r)
    else none

/-- Integer literal with optional sign. -/
def parseNumber (s : List Char) : Option (Int × List Char) :=
  match s with
  | '-' :: r =>
    match parseNumNat r with
    | some (n, r') => some (-(n : Int), r')
    | none => none
  | _ =>
    match parseNumNat s with
    | some (n, r') => some ((n : Int), r')
    | none => none

mutual

/-- Recursive-descent JSON value, fuelled to make termination structural. -/
def parseValue : Nat → List Char → Option (Json × List Char)
  | 0, _ => none
  | fuel + 1, s =>
    match skipWsJ s with
    | [] => none
    | '{' :: r =>
      match skipWsJ r with
      | '}' :: r' => some (.obj [], r')
      | r' =>
        match parseMembers fuel r' with
        | some (ms, rest) => some (.obj ms, rest)
        | none => none
    | '[' :: r =>
      match skipWsJ r with
      | ']' :: r' => some (.arr [], r')
      | r' =>
        match parseItems fuel r' with
        | some (xs, rest) => some (.arr xs, rest)
        | none => none
    | '"' :: r =>
      match parseStrBody (r.length + 1) r with
      | some (cs, rest) => some (.str cs, rest)
      | none => none
    | 't' :: r =>
      if startswith "rue".toList r then some (.bool true, r.drop 3) else none
    | 'f' :: r =>
      if startswith "alse".toList r then some (.bool false, r.drop 4) else none
    | 'n' :: r =>
      if startswith "ull".toList r then some (.null, r.drop 3) else none
    | s' =>
      match parseNumber s' with
      | some (n, rest) => some (.num n, rest)
      | none => none

/-- Comma-separated array items up to and including the closing bracket. -/
def parseItems : Nat → List Char → Option (List Json × List Char)
  | 0, _ => none
  | fuel + 1, s =>
    match parseValue fuel s with
    | none => none
    | some (j, rest) =>
      match skipWsJ rest with
      | ',' :: r =>
        match parseItems fuel r with
        | some (xs, rest') => some (j :: xs, rest')
        | none => none
      | ']' :: r => some ([j], r)
      | _ => none

/-- Comma-separated object members up to and including the closing brace. -/
def parseMembers : Nat → List Char → Option (List (List Char × Json) × List Char)
  | 0, _ => none
  | fuel + 1, s =>
    match skipWsJ s with
    | '"' :: r =>
      match parseStrBody (r.length + 1) r with
      | none => none
      | some (key, rest) =>
        match skipWsJ rest with
        | ':' :: r2 =>
          match parseValue fuel r2 with
          | none => none
          | some (v, rest2) =>
            match skipWsJ rest2 with
            | ',' :: r3 =>
              match parseMembers fuel r3 with
              | some (ms, rest3) => some ((key, v) :: ms, rest3)
              | none => none
            | '}' :: r3 => some ([(key, v)], r3)
            | _ => none
        | _ => none
    | _ => none

end

/-- Parse a complete JSON document: one value, with nothing but whitespace
after it. -/
def jsonCore (s : List Char) : Option Json :=
  match parseValue (s.length + 1) s with
  | some (j, rest) => if (skipWsJ rest).isEmpty then some j else none
  | none => none

/-- Model of `json.loads`.  Tolerance for surrounding whitespace is modelled
with Python's `str.strip` character class (the source always strips the text
before parsing, src/main.py line 146, so the two classes are never
distinguished on the code's inputs). -/
def jsonLoads (s : List Char) : Option Json := jsonCore (pyStrip s)

/-! ## Data model (src/main.py lines 50-79)

The pydantic models.  The `float` fields carry pose coordinates that the
program never computes with: their only observable is their JSON rendering,
so they are modelled by that rendering. -/

/-- A Python float as the program observes it: its decimal rendering used by
`json.dumps`. -/
structure PyFloat where
  lit : List Char

/-- Keypoint model (src/main.py lines 50-54). -/
structure Keypoint where
  name : List Char
  x : PyFloat
  y : PyFloat
  score : PyFloat

/-- Pose model (src/main.py lines 57-59). -/
structure Pose where
  keypoints : List Keypoint
  score : PyFloat

/-- AnalysisRequest model (src/main.py lines 62-64). -/
structure AnalysisRequest where
  poses : List Pose
  timestamp : Int

/-- FeedbackItem model (src/main.py lines 67-70). -/
structure FeedbackItem where
  type : List Char
  text : List Char
  icon : List Char

/-- AnalysisResponse model (src/main.py lines 73-79). -/
structure AnalysisResponse where
  overall : Int
  accuracy : Int
  coordination : Int
  stability : Int
  feedback : List FeedbackItem
  suggestions : List (List Char)

/-! ## `json.dumps` of the pose data (src/main.py line 89) -/

/-- One hex digit (lowercase), for control-character escapes. -/
def hexDigit (n : Nat) : Char :=
  if n < 10 then Char.ofNat (48 + n) else Char.ofNat (87 + n)

/-- Escape one character as `json.dumps` does with `ensure_ascii=False`. -/
def escapeChar (c : Char) : List Char :=
  if c == '"' then ['\\', '"']
  else if c == '\\' then ['\\', '\\']
  else if c == '\n' then ['\\', 'n']
  else if c == '\t' then ['\\', 't']
  else if c == '\r' then ['\\', 'r']
  else if c == '\x08' then ['\\', 'b']
  else if c == '\x0c' then ['\\', 'f']
  else if c.toNat < 32 then
    ['\\', 'u', '0', '0', hexDigit (c.toNat / 16), hexDigit (c.toNat % 16)]
  else [c]

/-- `json.dumps` of a string value. -/
def dumpsString (s : List Char) : List Char :=
  '"' :: (s.flatMap escapeChar) ++ ['"']

/-- Join rendered elements with `json.dumps`'s default ", " separator. -/
def joinComma : List (List Char) → List Char
  | [] => []
  | [x] => x
  | x :: xs => x ++ ", ".toList ++ joinComma xs

/-- `json.dumps` of an array from its rendered elements. -/
def dumpsArr (elems : List (List Char)) : List Char :=
  '[' :: joinComma elems ++ [']']

/-- `json.dumps(keypoint.model_dump())`: fields in declaration order. -/
def dumpsKeypoint (k : Keypoint) : List Char :=
  "\x7b\"name\": ".toList ++ dumpsString k.name ++
  ", \"x\": ".toList ++ k.x.lit ++
  ", \"y\": ".toList ++ k.y.lit ++
  ", \"score\": ".toList ++ k.score.lit ++ "\x7d".toList

/-- `json.dumps(pose.model_dump())`: fields in declaration order. -/
def dumpsPose (p : Pose) : List Char :=
  "\x7b\"keypoints\": ".toList ++ dumpsArr (p.keypoints.map dumpsKeypoint) ++
  ", \"score\": ".toList ++ p.score.lit ++ "\x7d".toList

/-- `json.dumps([pose.model_dump() for pose in poses], ensure_ascii=False)`
(src/main.py line 89). -/
def posesJson (poses : List Pose) : List Char :=
  dumpsArr (poses.map dumpsPose)

/-! ## Prompt Builder (src/main.py lines 88-119) -/

/-- Text of the prompt before the interpolated pose JSON (lines 92-95). -/
def promptPrefix : String :=
  "你是一个专业的运动分析师。请分析以下人体姿态数据。\n\n姿态数据（JSON 格式）：\n"

/-- Text of the prompt after the interpolated pose JSON (lines 96-119). -/
def promptSuffix : String :=
  "\n\n请返回以下格式的 JSON（只返回 JSON，不要其他文字）：\n\x7b\n  \"overall\": 85,\n  \"accuracy\": 88,\n  \"coordination\": 82,\n  \"stability\": 85,\n  \"feedback\": [\n    \x7b\"type\": \"good\", \"text\": \"动作准确性很高，基本达到了标准姿势\", \"icon\": \"✅\"\x7d,\n    \x7b\"type\": \"improve\", \"text\": \"动作协调性可以进一步提升\", \"icon\": \"⚡\"\x7d\n  ],\n  \"suggestions\": [\n    \"建议保持身体核心稳定，避免晃动\",\n    \"练习时放慢动作速度，感受肌肉发力顺序\"\n  ]\n\x7d\n\n评分标准（0-100）：\n- accuracy: 动作准确性，关键点位置是否正确\n- coordination: 身体协调性，左右对称、动作流畅度\n- stability: 动作稳定性，身体晃动程度\n\n请根据姿态数据给出专业的分析和建议。\n"

/-- The Prompt Builder (src/main.py lines 88-119): the f-string with the
serialized pose sequence interpolated. -/
def buildPrompt (poses : List Pose) : List Char :=
  promptPrefix.toList ++ posesJson poses ++ promptSuffix.toList

/-- The fixed system-role message (src/main.py line 127). -/
def systemContent : List Char :=
  "你是一个专业的运动分析师，擅长分析人体姿态和运动表现。".toList

/-! ## Response Repair (src/main.py lines 139-146) -/

/-- The `"```json"` literal of line 140. -/
def jsonFence : List Char := "```json".toList

/-- The `"```"` literal of lines 142 and 144. -/
def fenceMark : List Char := "```".toList

/-- Line 140-141: `if result_text.startswith("```json"): result_text = result_text[7:]`. -/
def stripLead1 (s : List Char) : List Char :=
  if startswith jsonFence s then s.drop 7 else s

/-- Line 142-143: `if result_text.startswith("```"): result_text = result_text[3:]`. -/
def stripLead2 (s : List Char) : List Char :=
  if startswith fenceMark s then s.drop 3 else s

/-- Line 144-145: `if result_text.endswith("```"): result_text = result_text[:-3]`. -/
def stripTrail (s : List Char) : List Char :=
  if endswith fenceMark s then s.take (s.length - 3) else s

/-- The whole Response Repair step, lines 140-146 (including the final
`.strip()`). -/
def stripFences (s : List Char) : List Char :=
  pyStrip (stripTrail (stripLead2 (stripLead1 s)))

/-! ## Completion Client Adapter and the Delegated path (lines 82-153) -/

/-- The external completion capability: model identifier, system message and
user prompt in; the completion text, or a transport/upstream exception, out. -/
def Client : Type :=
  List Char → List Char → List Char → Except (List Char) (List Char)

/-- The exception caught by the `try` of lines 121-153, as rendered into the
`detail` string `"OpenAI API 调用失败: {e}"`. -/
inductive CallExn where
  | upstream (msg : List Char)
  | jsonDecode (raw : List Char)

/-- The `detail` payload of each failure surfaced by the handlers. -/
inductive ErrDetail where
  /-- `"OpenAI API 未配置"` (line 86). -/
  | notConfigured
  /-- `"OpenAI API 调用失败: {e}"` (line 153). -/
  | apiCallFailed (e : CallExn)
  /-- `"姿态数据为空"` (line 207). -/
  | emptyPoses
  /-- `"分析失败: {e}"` (line 223). -/
  | analyzeFailed (msg : List Char)
  /-- FastAPI's response-model validation failure on the returned dict
  (`response_model=AnalysisResponse`, line 202). -/
  | responseValidation

/-- An `HTTPException(status_code, detail)`. -/
structure HTTPError where
  status : Nat
  detail : ErrDetail

/-- `analyze_with_openai` (src/main.py lines 82-153): guard on the
configured client, prompt construction, the completion call, response
repair (on the stripped completion text, lines 137-146), and `json.loads`;
every failure is an `HTTPException(500, ...)`. -/
def analyzeWithOpenai : Option Client → List Char → List Pose → Except HTTPError Json
  | none, _, _ => .error ⟨500, .notConfigured⟩
  | some c, model, poses =>
    match c model systemContent (buildPrompt poses) with
    | .error e => .error ⟨500, .apiCallFailed (.upstream e)⟩
    | .ok content =>
      match jsonLoads (stripFences (pyStrip content)) with
      | none => .error ⟨500, .apiCallFailed (.jsonDecode (stripFences (pyStrip content)))⟩
      | some j => .ok j

/-! ## Fallback Generator (src/main.py lines 156-182) -/

/-- The state of `random`: a stream of raw draws. -/
def RandStream : Type := Nat → Nat

/-- `random.randint(lo, hi)`: inclusive on both ends; consumes one raw draw
and maps it uniformly onto the range. -/
def randint (lo hi : Nat) (g : RandStream) : Nat × RandStream :=
  (lo + g 0 % (hi + 1 - lo), fun n => g (n + 1))

/-- `analyze_locally` (src/main.py lines 156-182): four uniform draws from
[70, 95] and the two fixed lists, assembled into the result dict.  The
`poses` argument is received but never read. -/
def analyzeLocally (poses : List Pose) (g : RandStream) : Json × RandStream :=
  let (overall, g1) := randint 70 95 g
  let (accuracy, g2) := randint 70 95 g1
  let (coordination, g3) := randint 70 95 g2
  let (stability, g4) := randint 70 95 g3
  (.obj [
    ("overall".toList, .num (overall : Int)),
    ("accuracy".toList, .num (accuracy : Int)),
    ("coordination".toList, .num (coordination : Int)),
    ("stability".toList, .num (stability : Int)),
    ("feedback".toList, .arr [
      .obj [("type".toList, .str "good".toList),
            ("text".toList, .str "动作基本完成".toList),
            ("icon".toList, .str "✅".toList)],
      .obj [("type".toList, .str "improve".toList),
            ("text".toList, .str "可以进一步优化动作标准度".toList),
            ("icon".toList, .str "⚡".toList)]]),
    ("suggestions".toList, .arr [
      .str "保持动作节奏，注意呼吸配合".toList,
      .str "每次练习前做好充分热身".toList])], g4)

/-! ## Outgoing schema validation (`response_model=AnalysisResponse`) -/

/-- Look a key up in a parsed JSON object; later duplicates override earlier
ones, as in the Python dict `json.loads` builds. -/
def getField : List (List Char × Json) → List Char → Option Json
  | [], _ => none
  | (k, v) :: rest, key =>
    match getField rest key with
    | some v' => some v'
    | none => if k = key then some v else none

/-- Read an integer-typed field. -/
def asInt : Json → Option Int
  | .num n => some n
  | _ => none

/-- Read a string-typed field. -/
def asStr : Json → Option (List Char)
  | .str s => some s
  | _ => none

/-- Validate one element of `feedback` against `FeedbackItem`. -/
def asFeedbackItem : Json → Option FeedbackItem
  | .obj fs =>
    match getField fs "type".toList, getField fs "text".toList,
          getField fs "icon".toList with
    | some t, some x, some i =>
      match asStr t, asStr x, asStr i with
      | some t', some x', some i' => some ⟨t', x', i'⟩
      | _, _, _ => none
    | _, _, _ => none
  | _ => none

/-- Validate every element of a list, failing if any element fails. -/
def mapOption (f : α → Option β) : List α → Option (List β)
  | [] => some []
  | a :: as =>
    match f a, mapOption f as with
    | some b, some bs => some (b :: bs)
    | _, _ => none

/-- Pydantic validation of the returned dict against `AnalysisResponse`
(the `response_model` of line 202): all six fields present and well-typed;
extra fields are ignored. -/
def validateAnalysisResponse (j : Json) : Option AnalysisResponse :=
  match j with
  | .obj fs =>
    match getField fs "overall".toList, getField fs "accuracy".toList,
          getField fs "coordination".toList, getField fs "stability".toList with
    | some o, some a, some c, some st =>
      match asInt o, asInt a, asInt c, asInt st with
      | some o', some a', some c', some st' =>
        match getField fs "feedback".toList, getField fs "suggestions".toList with
        | some (.arr fbs), some (.arr sgs) =>
          match mapOption asFeedbackItem fbs, mapOption asStr sgs with
          | some fbs', some sgs' => some ⟨o', a', c', st', fbs', sgs'⟩
          | _, _ => none
        | _, _ => none
      | _, _, _, _ => none
    | _, _, _, _ => none
  | _ => none

/-! ## Request Orchestrator (src/main.py lines 202-223) -/

/-- What `POST /api/analyze` produces: a validated 200 response, or an HTTP
error status with its detail. -/
inductive AnalyzeOutcome where
  | success (r : AnalysisResponse)
  | failure (status : Nat) (detail : ErrDetail)

/-- Serving a handler-returned dict through `response_model=AnalysisResponse`:
a conforming dict becomes the 200 body, a non-conforming one a 500. -/
def serveResult (j : Json) : AnalyzeOutcome :=
  match validateAnalysisResponse j with
  | some r => .success r
  | none => .failure 500 .responseValidation

/-- How a Delegated-path result surfaces through lines 212 / 217 / 219-220. -/
def delegatedOutcome (r : Except HTTPError Json) : AnalyzeOutcome :=
  match r with
  | .error e => .failure e.status e.detail
  | .ok j => serveResult j

/-- Lines 209-217: the Delegated path when a client is configured (calling
`analyze_with_openai` on the same configured client), the Fallback path
otherwise; a raised `HTTPException` propagates (lines 219-220) and a
returned dict is served through the response model. -/
def delegateOrFallback : Option Client → List Char → RandStream → List Pose →
    AnalyzeOutcome × RandStream
  | some c, model, g, poses =>
    match analyzeWithOpenai (some c) model poses with
    | .error e => (.failure e.status e.detail, g)
    | .ok j => (serveResult j, g)
  | none, _, g, poses =>
    match analyzeLocally poses g with
    | (j, g') => (serveResult j, g')

/-- The `POST /api/analyze` handler (src/main.py lines 202-223): empty-poses
guard, then the Delegated or Fallback path as selected by the configured
client. -/
def postAnalyze (client : Option Client) (model : List Char)
    (g : RandStream) (req : AnalysisRequest) : AnalyzeOutcome × RandStream :=
  if req.poses.isEmpty then (.failure 400 .emptyPoses, g)
  else delegateOrFallback client model g req.poses

/-! ## Startup configuration and `GET /api/health` (lines 34-46, 191-199) -/

/-- Module-level client construction (src/main.py lines 38-46): a client
exists iff the library imported, the key is a non-empty string, and the
constructor (modelled as a fallible function) did not raise. -/
def clientInit (available : Bool) (apiKey baseURL : List Char)
    (construct : List Char → List Char → Option Client) : Option Client :=
  if available && !apiKey.isEmpty then construct apiKey baseURL else none

/-- The body returned by `GET /api/health` (src/main.py lines 191-199). -/
structure HealthResponse where
  status : List Char
  openai_configured : Bool
  openai_available : Bool
  model : List Char

/-- The `GET /api/health` handler (src/main.py lines 191-199). -/
def health (client : Option Client) (available : Bool)
    (model : List Char) : HealthResponse :=
  ⟨"ok".toList, client.isSome, available, model⟩

/-! ## Observers used to state unreachability -/

/-- Does a Delegated-path result carry the line-86 not-configured error? -/
def isNotConfiguredErr : Except HTTPError Json → Bool
  | .error ⟨_, .notConfigured⟩ => true
  | _ => false

/-- Does an endpoint outcome carry the line-86 not-configured error? -/
def outcomeNotConfigured : AnalyzeOutcome → Bool
  | .failure _ .notConfigured => true
  | _ => false

/-! ## The shape asserted by the Response Repair specification

The specification says the repair step removes at most one leading and at
most one trailing fence marker and then parses.  `atMostOneMarkerStrip s out`
says `out` is obtainable from `s` by removing one optional leading marker,
one optional trailing marker, and surrounding whitespace. -/

/-- One fenced-code marker: a triple-backtick optionally followed by a
language tag (a tag contains no backtick). -/
def isFenceMarker (m : List Char) : Bool :=
  startswith fenceMark m && (m.drop 3).all (fun c => !(c == '`'))

/-- An optional marker: absent, or one marker. -/
def isOptMarker (m : List Char) : Bool := m.isEmpty || isFenceMarker m

/-- All decompositions of `s` into three consecutive pieces. -/
def splits3 (s : List Char) : List (List Char × List Char × List Char) :=
  (List.range (s.length + 1)).flatMap (fun i =>
    (List.range (s.length + 1)).map (fun j =>
      (s.take i, (s.drop i).take j, (s.drop i).drop j)))

/-- `out` results from `s` by stripping at most one leading marker, at most
one trailing marker, and surrounding whitespace. -/
def atMostOneMarkerStrip (s out : List Char) : Bool :=
  (splits3 s).any (fun t =>
    isOptMarker t.1 && isOptMarker t.2.2 && decide (pyStrip t.2.1 = out))

/-! ## Concrete inputs used by the witnesses -/

/-- A concrete keypoint. -/
def kp0 : Keypoint := ⟨"nose".toList, ⟨"0.5".toList⟩, ⟨"0.25".toList⟩, ⟨"0.9".toList⟩⟩

/-- A concrete pose. -/
def pose0 : Pose := ⟨[kp0], ⟨"0.8".toList⟩⟩

/-- A concrete non-empty request. -/
def req0 : AnalysisRequest := ⟨[pose0], 1700000000⟩

/-- A second concrete non-empty request, differing in poses and timestamp. -/
def req1 : AnalysisRequest := ⟨[pose0, pose0], 42⟩

/-- A concrete empty request. -/
def reqEmpty : AnalysisRequest := ⟨[], 5⟩

/-- The identity raw-draw stream. -/
def gid : RandStream := fun n => n

/-- A client whose completion is the plain text `"not json"`. -/
def clientNotJson : Client := fun _ _ _ => .ok "not json".toList

/-- A client whose completion parses but misses required fields. -/
def clientMissingFields : Client := fun _ _ _ => .ok "\x7b\"overall\": 85\x7d".toList

/-- A client whose completion call raises. -/
def clientBoom : Client := fun _ _ _ => .error "boom".toList

/-- A trivial client value for configuration witnesses. -/
def clientDummy : Client := fun _ _ _ => .error []

/-- The error produced by the Delegated path on the `"not json"` completion. -/
def errNotJson : HTTPError :=
  ⟨500, .apiCallFailed (.jsonDecode "not json".toList)⟩

/-- The response the Fallback Generator yields from raw stream `g`. -/
def expectedFallbackResponse (g : RandStream) : AnalysisResponse where
  overall := ((70 + g 0 % 26 : Nat) : Int)
  accuracy := ((70 + g 1 % 26 : Nat) : Int)
  coordination := ((70 + g 2 % 26 : Nat) : Int)
  stability := ((70 + g 3 % 26 : Nat) : Int)
  feedback := [⟨"good".toList, "动作基本完成".toList, "✅".toList⟩,
               ⟨"improve".toList, "可以进一步优化动作标准度".toList, "⚡".toList⟩]
  suggestions := ["保持动作节奏，注意呼吸配合".toList,
                  "每次练习前做好充分热身".toList]

/-! ## Helper lemmas -/

/-- Every error the Delegated path produces carries status 500. -/
theorem analyzeWithOpenai_error_status (client : Option Client) (model : List Char)
    (poses : List Pose) (e : HTTPError)
    (h : analyzeWithOpenai client model poses = .error e) : e.status = 500 := by
  cases client with
  | none =>
    simp only [analyzeWithOpenai, Except.error.injEq] at h
    subst h; rfl
  | some c =>
    cases hc : c model systemContent (buildPrompt poses) with
    | error msg =>
      simp only [analyzeWithOpenai, hc, Except.error.injEq] at h
      subst h; rfl
    | ok t =>
      cases hj : jsonLoads (stripFences (pyStrip t)) with
      | none =>
        simp only [analyzeWithOpenai, hc, hj, Except.error.injEq] at h
        subst h; rfl
      | some j =>
        simp [analyzeWithOpenai, hc, hj] at h

/-- Serving any dict never produces the not-configured error. -/
theorem serveResult_no_notConfigured (j : Json) :
    outcomeNotConfigured (serveResult j) = false := by
  unfold serveResult
  cases validateAnalysisResponse j <;> rfl

/-! ## Claims -/

/-- C3: for every AnalysisRequest with an empty poses sequence, the handler
returns HTTP 400 with the empty-poses detail, whatever the configuration;
the random stream is returned untouched and no path result appears, so
neither the Delegated nor the Fallback path is entered. -/
theorem empty_poses_400 (client : Option Client) (model : List Char)
    (g : RandStream) (req : AnalysisRequest) (h : req.poses.isEmpty = true) :
    postAnalyze client model g req = (.failure 400 .emptyPoses, g) := by
  unfold postAnalyze
  rw [h]
  simp

/-- C3 witness at a concrete empty request with a configured client. -/
theorem empty_poses_400_witness :
    reqEmpty.poses.isEmpty = true
    ∧ postAnalyze (some clientDummy) [] gid reqEmpty = (.failure 400 .emptyPoses, gid) :=
  ⟨rfl, empty_poses_400 (some clientDummy) [] gid reqEmpty rfl⟩

/-- C5: the Prompt Builder of lines 88-119 is a pure function of the pose
sequence — in this embedding it takes no state, randomness or other inputs,
so two calls on identical pose sequences give byte-identical prompts. -/
theorem prompt_builder_pure (ps1 ps2 : List Pose) (h : ps1 = ps2) :
    buildPrompt ps1 = buildPrompt ps2 :=
  congrArg buildPrompt h

/-- C5 witness at a concrete pose sequence. -/
theorem prompt_builder_pure_witness :
    ([pose0] : List Pose) = [pose0] ∧ buildPrompt [pose0] = buildPrompt [pose0] :=
  ⟨rfl, prompt_builder_pure [pose0] [pose0] rfl⟩

/-- C2: with no completion capability configured, a non-empty request
succeeds (HTTP 200) with the four scores drawn as `70 + draw % 26` from four
distinct positions of the raw stream — hence each lies in [70, 95], and the
per-score map is a bijection from the 26 raw residues onto [70, 95], so each
score is uniform whenever its raw draw is, independently of the others — and
with the fixed two-item feedback and suggestion lists. -/
theorem fallback_response_shape (model : List Char) (g : RandStream)
    (req : AnalysisRequest) (h : req.poses.isEmpty = false) :
    postAnalyze none model g req
      = (.success (expectedFallbackResponse g), fun n => g (n + 4))
    ∧ (expectedFallbackResponse g).feedback.length = 2
    ∧ (expectedFallbackResponse g).suggestions.length = 2
    ∧ (∀ i : Nat, 70 ≤ 70 + g i % 26 ∧ 70 + g i % 26 ≤ 95)
    ∧ (∀ v w : Nat, v < 26 → w < 26 → 70 + v % 26 = 70 + w % 26 → v = w)
    ∧ (∀ v : Nat, v < 26 → 70 ≤ 70 + v % 26 ∧ 70 + v % 26 ≤ 95) := by
  refine ⟨?_, rfl, rfl, ?_, ?_, ?_⟩
  · unfold postAnalyze
    rw [h]
    simp only [Bool.false_eq_true, if_false]
    rfl
  · intro i
    have := Nat.mod_lt (g i) (show 0 < 26 by norm_num)
    omega
  · intro v w hv hw he
    rw [Nat.mod_eq_of_lt hv, Nat.mod_eq_of_lt hw] at he
    omega
  · intro v hv
    rw [Nat.mod_eq_of_lt hv]
    omega

/-- C2 witness at a concrete request and raw stream. -/
theorem fallback_response_shape_witness :
    req0.poses.isEmpty = false
    ∧ postAnalyze none [] gid req0
        = (.success (expectedFallbackResponse gid), fun n => gid (n + 4)) :=
  ⟨rfl, (fallback_response_shape [] gid req0 rfl).1⟩

/-- C6: for a non-empty request the handler takes the Delegated path exactly
when a client is configured, and the Fallback path exactly when none is: the
configuration alone selects the branch. -/
theorem branch_selection (model : List Char) (g : RandStream)
    (req : AnalysisRequest) (h : req.poses.isEmpty = false) :
    (∀ c : Client, postAnalyze (some c) model g req
        = (delegatedOutcome (analyzeWithOpenai (some c) model req.poses), g))
    ∧ postAnalyze none model g req
        = (serveResult (analyzeLocally req.poses g).1, (analyzeLocally req.poses g).2) := by
  constructor
  · intro c
    unfold postAnalyze
    rw [h]
    simp only [Bool.false_eq_true, if_false]
    cases hr : analyzeWithOpenai (some c) model req.poses <;>
      simp [delegateOrFallback, delegatedOutcome, hr]
  · unfold postAnalyze
    rw [h]
    simp only [Bool.false_eq_true, if_false]
    rfl

/-- C6 witness at a concrete request, client and raw stream. -/
theorem branch_selection_witness :
    req0.poses.isEmpty = false
    ∧ postAnalyze (some clientBoom) [] gid req0
        = (delegatedOutcome (analyzeWithOpenai (some clientBoom) [] req0.poses), gid)
    ∧ postAnalyze none [] gid req0
        = (serveResult (analyzeLocally req0.poses gid).1, (analyzeLocally req0.poses gid).2) :=
  ⟨rfl, (branch_selection [] gid req0 rfl).1 clientBoom, (branch_selection [] gid req0 rfl).2⟩

/-- C9: under the orchestrator's precondition — `analyze_with_openai` is
only ever reached with a configured client — the line-86 not-configured
error is unreachable: no Delegated run on `some c` and no endpoint outcome
at all ever carries it. -/
theorem notConfigured_unreachable :
    (∀ (c : Client) (model : List Char) (poses : List Pose),
        isNotConfiguredErr (analyzeWithOpenai (some c) model poses) = false)
    ∧ (∀ (client : Option Client) (model : List Char) (g : RandStream)
        (req : AnalysisRequest),
        outcomeNotConfigured (postAnalyze client model g req).1 = false) := by
  have h1 : ∀ (c : Client) (model : List Char) (poses : List Pose),
      isNotConfiguredErr (analyzeWithOpenai (some c) model poses) = false := by
    intro c model poses
    cases hc : c model systemContent (buildPrompt poses) with
    | error msg => simp [analyzeWithOpenai, hc, isNotConfiguredErr]
    | ok t =>
      cases hj : jsonLoads (stripFences (pyStrip t)) with
      | none => simp [analyzeWithOpenai, hc, hj, isNotConfiguredErr]
      | some j => simp [analyzeWithOpenai, hc, hj, isNotConfiguredErr]
  refine ⟨h1, ?_⟩
  intro client model g req
  unfold postAnalyze
  cases he : req.poses.isEmpty with
  | true => simp [outcomeNotConfigured]
  | false =>
    simp only [Bool.false_eq_true, if_false]
    cases client with
    | none =>
      simp [delegateOrFallback, serveResult_no_notConfigured]
    | some c =>
      cases hr : analyzeWithOpenai (some c) model req.poses with
      | ok j => simp [delegateOrFallback, hr, serveResult_no_notConfigured]
      | error e =>
        have hne := h1 c model req.poses
        rw [hr] at hne
        obtain ⟨st, d⟩ := e
        cases d <;> simp_all [delegateOrFallback, isNotConfiguredErr, outcomeNotConfigured]

/-- C10: the Fallback path reads nothing from the request beyond its
non-emptiness: `analyze_locally` gives identical results on any two pose
lists and the same raw stream, and the handler on the Fallback branch gives
identical results on any two non-empty requests (any poses, any timestamp). -/
theorem fallback_ignores_request :
    (∀ (ps1 ps2 : List Pose) (g : RandStream), analyzeLocally ps1 g = analyzeLocally ps2 g)
    ∧ (∀ (model : List Char) (g : RandStream) (req1 req2 : AnalysisRequest),
        req1.poses.isEmpty = false → req2.poses.isEmpty = false →
        postAnalyze none model g req1 = postAnalyze none model g req2) := by
  constructor
  · intro _ _ _
    rfl
  · intro model g r1 r2 h1 h2
    unfold postAnalyze
    rw [h1, h2]
    rfl

/-- C10 witness at two concrete requests with different poses and timestamps. -/
theorem fallback_ignores_request_witness :
    req0.poses.isEmpty = false ∧ req1.poses.isEmpty = false
    ∧ postAnalyze none [] gid req0 = postAnalyze none [] gid req1 :=
  ⟨rfl, rfl, fallback_ignores_request.2 [] gid req0 req1 rfl rfl⟩

/-- C1: with a client configured, any Delegated-path failure — the upstream
call raising, or the completion text not being valid JSON — surfaces as the
HTTP 500 error it raised; the raw-draw stream comes back untouched, so the
Fallback Generator (`analyze_locally`) is never invoked on that request. -/
theorem delegated_failure_fails_loud (c : Client) (model : List Char)
    (g : RandStream) (req : AnalysisRequest) (e : HTTPError)
    (hne : req.poses.isEmpty = false)
    (herr : analyzeWithOpenai (some c) model req.poses = .error e) :
    e.status = 500 ∧ postAnalyze (some c) model g req = (.failure 500 e.detail, g) := by
  have h5 : e.status = 500 := analyzeWithOpenai_error_status (some c) model req.poses e herr
  refine ⟨h5, ?_⟩
  unfold postAnalyze
  rw [hne]
  simp only [Bool.false_eq_true, if_false]
  simp [delegateOrFallback, herr, h5]

/-- C1 witness: a configured client answering the raw text `"not json"`. -/
theorem delegated_failure_fails_loud_witness :
    req0.poses.isEmpty = false
    ∧ analyzeWithOpenai (some clientNotJson) [] req0.poses = .error errNotJson
    ∧ (errNotJson.status = 500
        ∧ postAnalyze (some clientNotJson) [] gid req0
            = (.failure 500 errNotJson.detail, gid)) :=
  ⟨rfl, rfl, delegated_failure_fails_loud clientNotJson [] gid req0 errNotJson rfl rfl⟩

/-- C7: on the Delegated path, a completion payload that parses as JSON but
fails the AnalysisResponse schema check is surfaced as an internal 500
failure, never as a 200 success. -/
theorem schema_mismatch_surfaces_500 (c : Client) (model : List Char)
    (g : RandStream) (req : AnalysisRequest) (t : List Char) (j : Json)
    (hne : req.poses.isEmpty = false)
    (hcall : c model systemContent (buildPrompt req.poses) = .ok t)
    (hparse : jsonLoads (stripFences (pyStrip t)) = some j)
    (hschema : validateAnalysisResponse j = none) :
    postAnalyze (some c) model g req = (.failure 500 .responseValidation, g) := by
  unfold postAnalyze
  rw [hne]
  simp only [Bool.false_eq_true, if_false]
  simp [delegateOrFallback, analyzeWithOpenai, hcall, hparse, serveResult, hschema]

/-- C7 witness: a completion returning a JSON object missing every required
field but `overall`. -/
theorem schema_mismatch_surfaces_500_witness :
    req0.poses.isEmpty = false
    ∧ clientMissingFields [] systemContent (buildPrompt req0.poses)
        = .ok "\x7b\"overall\": 85\x7d".toList
    ∧ jsonLoads (stripFences (pyStrip "\x7b\"overall\": 85\x7d".toList))
        = some (.obj [("overall".toList, .num 85)])
    ∧ validateAnalysisResponse (.obj [("overall".toList, .num 85)]) = none
    ∧ postAnalyze (some clientMissingFields) [] gid req0
        = (.failure 500 .responseValidation, gid) :=
  ⟨rfl, rfl, rfl, rfl,
    schema_mismatch_surfaces_500 clientMissingFields [] gid req0
      "\x7b\"overall\": 85\x7d".toList (.obj [("overall".toList, .num 85)])
      rfl rfl rfl rfl⟩

/-- C8: `GET /api/health` always succeeds with status `"ok"` and the
configured model and availability flags; `openai_configured` mirrors the
startup client construction of lines 38-46 — false whenever the credential
is unset, true when it is set, the library imported, and construction
succeeded. -/
theorem health_reflects_configuration (available : Bool)
    (apiKey baseURL modelName : List Char)
    (construct : List Char → List Char → Option Client) :
    (health (clientInit available apiKey baseURL construct) available modelName).status
        = "ok".toList
    ∧ (health (clientInit available apiKey baseURL construct) available modelName).openai_available
        = available
    ∧ (health (clientInit available apiKey baseURL construct) available modelName).model
        = modelName
    ∧ (health (clientInit available apiKey baseURL construct) available modelName).openai_configured
        = (clientInit available apiKey baseURL construct).isSome
    ∧ (apiKey.isEmpty = true →
        (health (clientInit available apiKey baseURL construct) available modelName).openai_configured
          = false)
    ∧ (∀ cl : Client, available = true → apiKey.isEmpty = false →
        construct apiKey baseURL = some cl →
        (health (clientInit available apiKey baseURL construct) available modelName).openai_configured
          = true) := by
  refine ⟨rfl, rfl, rfl, rfl, ?_, ?_⟩
  · intro hk
    simp [health, clientInit, hk]
  · intro cl hav hk hc
    simp [health, clientInit, hav, hk, hc]

/-- C8 witness: one configured instantiation (key set, library available,
construction succeeding) and one with the credential unset. -/
theorem health_reflects_configuration_witness :
    (("k".toList : List Char).isEmpty = false
      ∧ (fun (_ _ : List Char) => some clientDummy) "k".toList [] = some clientDummy
      ∧ (health (clientInit true "k".toList [] (fun _ _ => some clientDummy)) true []).openai_configured
          = true)
    ∧ (([] : List Char).isEmpty = true
      ∧ (health (clientInit false [] [] (fun _ _ => none)) false []).openai_configured
          = false) :=
  ⟨⟨rfl, rfl,
    (health_reflects_configuration true "k".toList [] [] (fun _ _ => some clientDummy)).2.2.2.2.2
      clientDummy rfl rfl rfl⟩,
   ⟨rfl,
    (health_reflects_configuration false [] [] [] (fun _ _ => none)).2.2.2.2.1 rfl⟩⟩

/-- A successful `startswith` pins down the corresponding take. -/
theorem startswith_take : ∀ (pat s : List Char), startswith pat s = true →
    pat.length ≤ s.length ∧ s.take pat.length = pat := by
  intro pat
  induction pat with
  | nil =>
    intro s _
    exact ⟨Nat.zero_le _, by simp⟩
  | cons a as ih =>
    intro s h
    cases s with
    | nil => simp [startswith] at h
    | cons b bs =>
      simp only [startswith, Bool.and_eq_true, beq_iff_eq] at h
      obtain ⟨rfl, h2⟩ := h
      obtain ⟨hl, ht⟩ := ih bs h2
      exact ⟨Nat.succ_le_succ hl, by simp [ht]⟩

/-- A pattern always starts its own extensions. -/
theorem startswith_append_self : ∀ (pat rest : List Char),
    startswith pat (pat ++ rest) = true := by
  intro pat rest
  induction pat with
  | nil => rfl
  | cons a as ih => simp [startswith, ih]

/-- A shared prefix cancels on both sides of `startswith`. -/
theorem startswith_append_both : ∀ (a b r : List Char),
    startswith (a ++ b) (a ++ r) = startswith b r := by
  intro a b r
  induction a with
  | nil => rfl
  | cons c cs ih => simp [startswith, ih]

/-- A successful `startswith` decomposes the string. -/
theorem startswith_eq_append {pat s : List Char} (h : startswith pat s = true) :
    s = pat ++ s.drop pat.length := by
  conv_lhs => rw [← List.take_append_drop pat.length s]
  rw [(startswith_take pat s h).2]

/-- A successful `endswith` pins down the corresponding drop. -/
theorem endswith_drop {suf s : List Char} (h : endswith suf s = true) :
    suf.length ≤ s.length ∧ s.drop (s.length - suf.length) = suf := by
  unfold endswith at h
  obtain ⟨hl, ht⟩ := startswith_take _ _ h
  rw [List.length_reverse, List.length_reverse] at hl
  refine ⟨hl, ?_⟩
  rw [List.length_reverse, List.take_reverse] at ht
  have h2 := congrArg List.reverse ht
  simpa using h2

/-- A suffix always ends its own extensions. -/
theorem endswith_append_self (y suf : List Char) : endswith suf (y ++ suf) = true := by
  unfold endswith
  rw [List.reverse_append]
  exact startswith_append_self _ _

/-- Dropping a leading whitespace character commutes with `lstrip`. -/
theorem lstrip_cons_ws {c : Char} (l : List Char) (h : isPySpace c = true) :
    lstrip (c :: l) = lstrip l := by
  simp [lstrip, List.dropWhile_cons, h]

/-- Dropping a trailing whitespace character commutes with `rstrip`. -/
theorem rstrip_append_ws {c : Char} (l : List Char) (h : isPySpace c = true) :
    rstrip (l ++ [c]) = rstrip l := by
  simp [rstrip, List.reverse_append, List.dropWhile_cons, h]

/-- `strip` absorbs a leading whitespace character. -/
theorem pyStrip_cons_ws {c : Char} (l : List Char) (h : isPySpace c = true) :
    pyStrip (c :: l) = pyStrip l := by
  simp [pyStrip, lstrip_cons_ws l h]

/-- `strip` absorbs a trailing whitespace character. -/
theorem pyStrip_append_ws (l : List Char) {c : Char} (h : isPySpace c = true) :
    pyStrip (l ++ [c]) = pyStrip l := by
  unfold pyStrip lstrip
  rw [List.dropWhile_append]
  cases he : (l.dropWhile isPySpace).isEmpty with
  | true =>
    have h2 : l.dropWhile isPySpace = [] := List.isEmpty_iff.mp he
    simp [he, h2, List.dropWhile_cons, h]
  | false =>
    simp only [he, Bool.false_eq_true, if_false]
    exact rstrip_append_ws _ h

/-- `lstrip` output is empty or has a non-whitespace head. -/
theorem lstrip_cases (x : List Char) :
    lstrip x = [] ∨ ∃ c t, lstrip x = c :: t ∧ isPySpace c = false := by
  induction x with
  | nil => exact Or.inl rfl
  | cons a as ih =>
    cases ha : isPySpace a with
    | true =>
      rw [lstrip_cons_ws as ha]
      exact ih
    | false =>
      exact Or.inr ⟨a, as, by simp [lstrip, List.dropWhile_cons, ha], ha⟩

/-- `rstrip` output is empty or keeps the original head. -/
theorem rstrip_cons_cases (c : Char) (t : List Char) :
    rstrip (c :: t) = [] ∨ ∃ t', rstrip (c :: t) = c :: t' := by
  unfold rstrip
  rw [List.reverse_cons, List.dropWhile_append]
  cases he : (t.reverse.dropWhile isPySpace).isEmpty with
  | true =>
    cases hc : isPySpace c with
    | true =>
      left
      simp [he, List.dropWhile_cons, hc]
    | false =>
      right
      exact ⟨[], by simp [he, List.dropWhile_cons, hc]⟩
  | false =>
    right
    refine ⟨(t.reverse.dropWhile isPySpace).reverse, ?_⟩
    simp [he, List.reverse_append]

/-- `rstrip` is idempotent. -/
theorem rstrip_idem (z : List Char) : rstrip (rstrip z) = rstrip z := by
  unfold rstrip
  rw [List.reverse_reverse, List.dropWhile_idempotent]

/-- `lstrip` leaves a stripped string unchanged. -/
theorem lstrip_rstrip_lstrip (x : List Char) :
    lstrip (rstrip (lstrip x)) = rstrip (lstrip x) := by
  rcases lstrip_cases x with h | ⟨c, t, heq, hws⟩
  · rw [h]
    rfl
  · rw [heq]
    rcases rstrip_cons_cases c t with h2 | ⟨t', h2⟩ <;> rw [h2]
    · rfl
    · simp [lstrip, List.dropWhile_cons, hws]

/-- Python `strip` is idempotent. -/
theorem pyStrip_idem (x : List Char) : pyStrip (pyStrip x) = pyStrip x := by
  show rstrip (lstrip (rstrip (lstrip x))) = _
  rw [lstrip_rstrip_lstrip, rstrip_idem]
  rfl

/-- `json.loads` does not see surrounding whitespace. -/
theorem jsonLoads_pyStrip (s : List Char) : jsonLoads (pyStrip s) = jsonLoads s := by
  unfold jsonLoads
  rw [pyStrip_idem]

/-- Response Repair on a properly fenced payload reduces to stripping the
fence lines and the surrounding whitespace. -/
theorem stripFences_fenced (p : List Char) :
    stripFences ("```json\n".toList ++ p ++ "\n```".toList) = pyStrip p := by
  have hA : "```json\n".toList ++ p ++ "\n```".toList
      = jsonFence ++ ('\n' :: (p ++ "\n```".toList)) := by
    have : "```json\n".toList = jsonFence ++ ['\n'] := rfl
    rw [this, List.append_assoc, List.append_assoc]
    rfl
  have h1 : stripLead1 ("```json\n".toList ++ p ++ "\n```".toList)
      = '\n' :: (p ++ "\n```".toList) := by
    unfold stripLead1
    rw [hA, startswith_append_self]
    simp only [if_true]
    exact List.drop_left' rfl
  have h2 : stripLead2 ('\n' :: (p ++ "\n```".toList))
      = '\n' :: (p ++ "\n```".toList) := by
    unfold stripLead2
    have hf : startswith fenceMark ('\n' :: (p ++ "\n```".toList)) = false := by
      have : fenceMark = '`' :: '`' :: '`' :: [] := rfl
      rw [this]
      simp [startswith]
    rw [hf]
    simp
  have h3 : stripTrail ('\n' :: (p ++ "\n```".toList)) = '\n' :: (p ++ ['\n']) := by
    unfold stripTrail
    have hsplit : '\n' :: (p ++ "\n```".toList)
        = ('\n' :: (p ++ ['\n'])) ++ fenceMark := by
      have : "\n```".toList = ['\n'] ++ fenceMark := rfl
      rw [this, ← List.append_assoc]
      rfl
    rw [hsplit, endswith_append_self]
    simp only [if_true]
    apply List.take_left'
    simp [fenceMark]
  unfold stripFences
  rw [h1, h2, h3, pyStrip_cons_ws _ (by rfl), pyStrip_append_ws _ (by rfl)]

/-- Every index pair gives a member of `splits3`. -/
theorem mem_splits3 (s : List Char) (i j : Nat) (hi : i ≤ s.length) (hj : j ≤ s.length) :
    (s.take i, (s.drop i).take j, (s.drop i).drop j) ∈ splits3 s := by
  unfold splits3
  rw [List.mem_flatMap]
  exact ⟨i, List.mem_range.mpr (Nat.lt_succ_of_le hi),
    List.mem_map.mpr ⟨j, List.mem_range.mpr (Nat.lt_succ_of_le hj), rfl⟩⟩

/-- Whenever the leading piece removed is one optional marker, the trailing
strip and final whitespace strip stay within the one-marker-each shape. -/
theorem atMost_of_lead (s : List Char) (i : Nat) (hi : i ≤ s.length)
    (hlead : isOptMarker (s.take i) = true) :
    atMostOneMarkerStrip s (pyStrip (stripTrail (s.drop i))) = true := by
  unfold stripTrail
  cases he : endswith fenceMark (s.drop i) with
  | false =>
    simp only [he, Bool.false_eq_true, if_false]
    unfold atMostOneMarkerStrip
    rw [List.any_eq_true]
    refine ⟨(s.take i, (s.drop i).take (s.length - i), (s.drop i).drop (s.length - i)),
      mem_splits3 s i (s.length - i) hi (Nat.sub_le _ _), ?_⟩
    have hlen : (s.drop i).length = s.length - i := List.length_drop i s
    have ht : (s.drop i).take (s.length - i) = s.drop i := by
      rw [← hlen]
      exact List.take_length _
    have hd : (s.drop i).drop (s.length - i) = [] := by
      rw [← hlen]
      exact List.drop_length _
    rw [ht, hd]
    have hOptNil : isOptMarker ([] : List Char) = true := rfl
    simp [hlead, hOptNil]
  | true =>
    simp only [he, if_true]
    obtain ⟨hl3, hdrop⟩ := endswith_drop he
    have hfl : fenceMark.length = 3 := rfl
    rw [hfl] at hl3 hdrop
    have hlen : (s.drop i).length = s.length - i := List.length_drop i s
    unfold atMostOneMarkerStrip
    rw [List.any_eq_true]
    refine ⟨(s.take i, (s.drop i).take ((s.drop i).length - 3),
        (s.drop i).drop ((s.drop i).length - 3)),
      mem_splits3 s i ((s.drop i).length - 3) hi (by omega), ?_⟩
    rw [hdrop]
    have hOptFence : isOptMarker fenceMark = true := by decide
    simp [hlead, hOptFence]

/-- C4 counterexample: on the text `"```json```true"` the repair step of
lines 140-146 strips TWO leading fence markers (the `"```json"` of line 140
and then the bare `"```"` of line 142), which no decomposition into at most
one leading and one trailing marker can produce; the doubly stripped
remainder `"true"` then parses. -/
theorem fence_strip_counterexample :
    atMostOneMarkerStrip "```json```true".toList
        (stripFences "```json```true".toList) = false
    ∧ stripFences "```json```true".toList = "true".toList
    ∧ jsonLoads (stripFences "```json```true".toList) = some (.bool true) :=
  ⟨by decide, by decide, rfl⟩

/-- C4 amended: the repair step strips at most one leading `"```json"`
marker and then at most one further leading bare `"```"` — both fire only
when the text begins with `"```json"` immediately followed by `"```"`; on
every other text at most one leading and at most one trailing marker is
stripped — and for every JSON payload `p`, parsing the text composed of a
leading ```json fence line, `p`, and a trailing fence line yields the same
result as parsing `p` directly. -/
theorem fence_strip_amended :
    (∀ s : List Char, startswith "```json```".toList s = false →
        atMostOneMarkerStrip s (stripFences s) = true)
    ∧ (∀ (p : List Char) (j : Json), jsonLoads p = some j →
        jsonLoads (stripFences ("```json\n".toList ++ p ++ "\n```".toList)) = some j) := by
  constructor
  · intro s hnot
    unfold stripFences stripLead1 stripLead2
    cases h1 : startswith jsonFence s with
    | true =>
      have h7 : jsonFence.length = 7 := rfl
      have hd7 : startswith fenceMark (s.drop 7) = false := by
        cases h2 : startswith fenceMark (s.drop 7) with
        | false => rfl
        | true =>
          exfalso
          have hs : s = jsonFence ++ s.drop 7 := by
            have h := startswith_eq_append h1
            rw [h7] at h
            exact h
          have hcomp : "```json```".toList = jsonFence ++ fenceMark := rfl
          have hsw : startswith "```json```".toList s = true := by
            rw [hcomp, hs, startswith_append_both]
            exact h2
          rw [hsw] at hnot
          simp at hnot
      simp only [h1, if_true, hd7, Bool.false_eq_true, if_false]
      apply atMost_of_lead s 7 ?_ ?_
      · have hle := (startswith_take jsonFence s h1).1
        rw [h7] at hle
        exact hle
      · have ht := (startswith_take jsonFence s h1).2
        rw [h7] at ht
        rw [ht]
        decide
    | false =>
      cases h2 : startswith fenceMark s with
      | true =>
        have h3 : fenceMark.length = 3 := rfl
        simp only [h1, Bool.false_eq_true, if_false, h2, if_true]
        apply atMost_of_lead s 3 ?_ ?_
        · have hle := (startswith_take fenceMark s h2).1
          rw [h3] at hle
          exact hle
        · have ht := (startswith_take fenceMark s h2).2
          rw [h3] at ht
          rw [ht]
          decide
      | false =>
        simp only [h1, h2, Bool.false_eq_true, if_false]
        have h := atMost_of_lead s 0 (Nat.zero_le _) rfl
        rw [List.drop_zero] at h
        exact h
  · intro p j hp
    rw [stripFences_fenced, jsonLoads_pyStrip]
    exact hp

/-- C4 amended witness: a single-marker text, and a concrete fenced payload. -/
theorem fence_strip_amended_witness :
    startswith "```json```".toList "```abc```".toList = false
    ∧ atMostOneMarkerStrip "```abc```".toList (stripFences "```abc```".toList) = true
    ∧ jsonLoads "5".toList = some (.num 5)
    ∧ jsonLoads (stripFences ("```json\n".toList ++ "5".toList ++ "\n```".toList))
        = some (.num 5) :=
  ⟨by decide, fence_strip_amended.1 "```abc```".toList (by decide), rfl,
    fence_strip_amended.2 "5".toList (.num 5) rfl⟩
